import Mathlib

/-!
Verification of the skeleton-rs loading-placeholder component (Yew and Dioxus
bindings).  The definitions below are a shallow embedding of `src/common.rs`,
`src/yew.rs` and `src/dioxus.rs`: the enums, the props records with their
`prop_or` defaults, the style-string resolver, the visibility lifecycle
(initializer, show/delay effect, timer fire, intersection-observer callback)
and the one-shot stylesheet injection.  Rust `&'static str` becomes `String`,
`u32 delay_ms` becomes `Nat` (no overflow is exercised), `i64` angles become
`Int`, and the opaque renderable `children` becomes an abstract `Nat` token.
-/

namespace SkeletonRs

/-- Enum `Variant` from `src/common.rs`. -/
inductive Variant where
  | Text
  | Circular
  | Rectangular
  | Rounded
  | Image
  | Avatar
  | Button
deriving DecidableEq, Repr

/-- Enum `Animation` from `src/common.rs`. -/
inductive Animation where
  | Pulse
  | Wave
  | None
deriving DecidableEq, Repr

/-- Enum `Theme` from `src/common.rs`; `Custom` carries the color string. -/
inductive Theme where
  | Light
  | Dark
  | Custom (color : String)
deriving DecidableEq, Repr

/-- Enum `Direction` from `src/common.rs`; `CustomAngle` carries an `i64` angle. -/
inductive Direction where
  | LeftToRight
  | RightToLeft
  | TopToBottom
  | BottomToTop
  | CustomAngle (deg : Int)
deriving DecidableEq, Repr

/-- Props of the Yew `Skeleton` component (`SkeletonProps` in `src/yew.rs`).
`children` is the opaque renderable content, modelled as an abstract token. -/
structure YewSkeletonProps where
  children : Nat
  variant : Variant
  animation : Animation
  theme : Theme
  width : String
  height : String
  font_size : Option String
  border_radius : String
  display : String
  line_height : String
  position : String
  overflow : String
  margin : String
  custom_style : String
  infer_size : Bool
  «show» : Bool
  delay_ms : Nat
  responsive : Bool
  max_width : Option String
  min_width : Option String
  max_height : Option String
  min_height : Option String
  animate_on_hover : Bool
  animate_on_focus : Bool
  animate_on_active : Bool
  animate_on_visible : Bool
deriving DecidableEq, Repr

/-- Props of the Dioxus `Skeleton` component (`SkeletonProps` in
`src/dioxus.rs`): the same fields plus `direction`. -/
structure DioxusSkeletonProps where
  children : Nat
  variant : Variant
  animation : Animation
  direction : Direction
  theme : Theme
  width : String
  height : String
  font_size : Option String
  border_radius : String
  display : String
  line_height : String
  position : String
  overflow : String
  margin : String
  custom_style : String
  infer_size : Bool
  «show» : Bool
  delay_ms : Nat
  responsive : Bool
  max_width : Option String
  min_width : Option String
  max_height : Option String
  min_height : Option String
  animate_on_hover : Bool
  animate_on_focus : Bool
  animate_on_active : Bool
  animate_on_visible : Bool
deriving DecidableEq, Repr

/-- The `prop_or` / `props(default)` defaults of the Yew props. -/
def yewDefaultProps : YewSkeletonProps where
  children := 0
  variant := .Text
  animation := .Pulse
  theme := .Light
  width := "100%"
  height := "1em"
  font_size := none
  border_radius := "4px"
  display := "inline-block"
  line_height := "1"
  position := "relative"
  overflow := "hidden"
  margin := ""
  custom_style := ""
  infer_size := false
  «show» := false
  delay_ms := 0
  responsive := false
  max_width := none
  min_width := none
  max_height := none
  min_height := none
  animate_on_hover := false
  animate_on_focus := false
  animate_on_active := false
  animate_on_visible := false

/-- The `props(default ...)` defaults of the Dioxus props. -/
def dioxusDefaultProps : DioxusSkeletonProps where
  children := 0
  variant := .Text
  animation := .Pulse
  direction := .LeftToRight
  theme := .Light
  width := "100%"
  height := "1em"
  font_size := none
  border_radius := "4px"
  display := "inline-block"
  line_height := "1"
  position := "relative"
  overflow := "hidden"
  margin := ""
  custom_style := ""
  infer_size := false
  «show» := false
  delay_ms := 0
  responsive := false
  max_width := none
  min_width := none
  max_height := none
  min_height := none
  animate_on_hover := false
  animate_on_focus := false
  animate_on_active := false
  animate_on_visible := false

/-- `let background_color = match props.theme { ... }` — identical in both
bindings (`src/yew.rs` and `src/dioxus.rs`). -/
def background_color : Theme → String
  | .Light => "#e0e0e0"
  | .Dark => "#444444"
  | .Custom color => color

/-- `let effective_radius = match props.variant { ... }` — identical in both
bindings. -/
def effective_radius (variant : Variant) (border_radius : String) : String :=
  match variant with
  | .Circular | .Avatar => "50%"
  | .Rectangular => "0"
  | .Rounded => "8px"
  | .Button => "6px"
  | .Text | .Image => border_radius

/-- `let base_animation = match props.animation { ... }` from `src/yew.rs`:
the Yew binding has no `direction` prop and always emits a 90deg gradient. -/
def base_animation : Animation → String
  | .Pulse => "animation: skeleton-rs-pulse 1.5s ease-in-out infinite;"
  | .Wave =>
      "background: linear-gradient(90deg, #e0e0e0 25%, #f5f5f5 50%, #e0e0e0 75%); background-size: 200% 100%; animation: skeleton-rs-wave 1.6s linear infinite;"
  | .None => ""

/-- The `let angle = match props.direction { ... }` table inside the `Wave`
arm of `animation_style` in `src/dioxus.rs`. -/
def wave_angle : Direction → Int
  | .LeftToRight => 90
  | .RightToLeft => 270
  | .TopToBottom => 180
  | .BottomToTop => 0
  | .CustomAngle deg => deg

/-- The `format!` template of the `Wave` arm of `animation_style` in
`src/dioxus.rs`, with the angle's decimal rendering substituted for `\x7b\x7d`.
The embedded newlines and 17-space indents are those of the Rust literal. -/
def wave_gradient (angle : String) : String :=
  "background: linear-gradient(" ++ angle ++
    "deg, #e0e0e0 25%, #f5f5f5 50%, #e0e0e0 75%);\n                 background-size: 200% 100%;\n                 animation: skeleton-rs-wave 1.6s linear infinite;"

/-- `let animation_style = match props.animation { ... }` from `src/dioxus.rs`:
the Dioxus binding derives the gradient angle from `direction`. -/
def animation_style (animation : Animation) (direction : Direction) : String :=
  match animation with
  | .Pulse => "animation: skeleton-rs-pulse 1.5s ease-in-out infinite;"
  | .Wave => wave_gradient (toString (wave_angle direction))
  | .None => ""

/-- The optional declarations appended after the base style — the five
`if let Some(...) { style.push_str(...) }` blocks, identical in both
bindings. -/
def optional_styles (p_font_size p_max_width p_min_width p_max_height p_min_height : Option String) : String :=
  (match p_font_size with
   | some size => " font-size: " ++ size ++ ";"
   | none => "") ++
  (match p_max_width with
   | some max_w => " max-width: " ++ max_w ++ ";"
   | none => "") ++
  (match p_min_width with
   | some min_w => " min-width: " ++ min_w ++ ";"
   | none => "") ++
  (match p_max_height with
   | some max_h => " max-height: " ++ max_h ++ ";"
   | none => "") ++
  (match p_min_height with
   | some min_h => " min-height: " ++ min_h ++ ";"
   | none => "")

/-- The style-string assembly of `src/yew.rs` (`let mut style = ...` through
the two trailing `push_str` calls), with the already-resolved background
color passed in, exactly as the Rust code resolves `background_color` first. -/
def yew_style_core (p : YewSkeletonProps) (bg : String) : String :=
  (if p.infer_size then
    "background-color: " ++ bg ++ "; border-radius: " ++
      effective_radius p.variant p.border_radius ++ "; display: " ++ p.display ++
      "; position: " ++ p.position ++ "; overflow: " ++ p.overflow ++
      "; margin: " ++ p.margin ++ ";"
  else
    "width: " ++ p.width ++ "; height: " ++ p.height ++ "; background-color: " ++
      bg ++ "; border-radius: " ++ effective_radius p.variant p.border_radius ++
      "; display: " ++ p.display ++ "; position: " ++ p.position ++
      "; overflow: " ++ p.overflow ++ "; margin: " ++ p.margin ++
      "; line-height: " ++ p.line_height ++ ";") ++
  optional_styles p.font_size p.max_width p.min_width p.max_height p.min_height ++
  base_animation p.animation ++
  p.custom_style

/-- The full inline style computed by the Yew `skeleton` function. -/
def yew_style (p : YewSkeletonProps) : String :=
  yew_style_core p (background_color p.theme)

/-- The style-string assembly of `src/dioxus.rs`, with the resolved
background color passed in. -/
def dioxus_style_core (p : DioxusSkeletonProps) (bg : String) : String :=
  (if p.infer_size then
    "background-color: " ++ bg ++ "; border-radius: " ++
      effective_radius p.variant p.border_radius ++ "; display: " ++ p.display ++
      "; position: " ++ p.position ++ "; overflow: " ++ p.overflow ++
      "; margin: " ++ p.margin ++ ";"
  else
    "width: " ++ p.width ++ "; height: " ++ p.height ++ "; background-color: " ++
      bg ++ "; border-radius: " ++ effective_radius p.variant p.border_radius ++
      "; display: " ++ p.display ++ "; position: " ++ p.position ++
      "; overflow: " ++ p.overflow ++ "; margin: " ++ p.margin ++
      "; line-height: " ++ p.line_height ++ ";") ++
  optional_styles p.font_size p.max_width p.min_width p.max_height p.min_height ++
  animation_style p.animation p.direction ++
  p.custom_style

/-- The full inline style computed by the Dioxus `Skeleton` function. -/
def dioxus_style (p : DioxusSkeletonProps) : String :=
  dioxus_style_core p (background_color p.theme)

/-- `let mut class_names = String::from("skeleton-rs"); ...` — identical in
both bindings. -/
def class_names (animate_on_hover animate_on_focus animate_on_active : Bool) : String :=
  "skeleton-rs" ++
  (if animate_on_hover then " skeleton-hover" else "") ++
  (if animate_on_focus then " skeleton-focus" else "") ++
  (if animate_on_active then " skeleton-active" else "")

/-- Class list of the Yew placeholder div. -/
def yew_class_names (p : YewSkeletonProps) : String :=
  class_names p.animate_on_hover p.animate_on_focus p.animate_on_active

/-- Class list of the Dioxus placeholder div. -/
def dioxus_class_names (p : DioxusSkeletonProps) : String :=
  class_names p.animate_on_hover p.animate_on_focus p.animate_on_active

/-- The node tree rendered by the Yew `skeleton` function: either the
placeholder div (class list, inline style, `role`, `aria-hidden`) or the
pass-through children. -/
inductive YewNode where
  | placeholder (cls style role aria_hidden : String)
  | childrenNode (c : Nat)
deriving DecidableEq, Repr

/-- The node tree rendered by the Dioxus `Skeleton` function: the placeholder
div additionally carries the fixed `id` attribute. -/
inductive DioxusNode where
  | placeholder (id cls style role aria_hidden : String)
  | childrenNode (c : Nat)
deriving DecidableEq, Repr

/-- The final `if *visible { html! { <div .../> } } else { ... }` of
`src/yew.rs`. -/
def yew_render (p : YewSkeletonProps) (visible : Bool) : YewNode :=
  if visible then
    .placeholder (yew_class_names p) (yew_style p) "presentation" "true"
  else
    .childrenNode p.children

/-- The final `if visible() { rsx! { div { id, ... } } } else { ... }` of
`src/dioxus.rs`; `id` is the fixed literal `"skeleton-rs"`. -/
def dioxus_render (p : DioxusSkeletonProps) (visible : Bool) : DioxusNode :=
  if visible then
    .placeholder "skeleton-rs" (dioxus_class_names p) (dioxus_style p) "presentation" "true"
  else
    .childrenNode p.children

/-!
Visibility lifecycle.  Both bindings keep a single mutable boolean
(`use_state(|| !props.show)` / `use_signal(|| !props.show)`) and mutate it
from three callbacks:

  * the show/delay effect, rerun on config updates:
    `if show { visible.set(false) } else if delay_ms > 0 { Timeout::new(..).forget() } else { visible.set(true) }`;
  * the timeout closure, which sets `visible` to `true` unconditionally when
    it fires — the `Timeout` is `forget()`-ten, so it is never cancelled;
  * the intersection-observer callback (installed only when
    `animate_on_visible`), which sets `visible` to `true` for every entry
    with `is_intersecting()` and does nothing otherwise.

We model the instance state as the flag plus the number of scheduled,
uncancellable timeouts, and the three callbacks as state transformers.
-/

/-- Per-instance state: the `visible` flag and the count of scheduled
(forgotten, hence uncancellable) delay timeouts. -/
structure InstanceState where
  visible : Bool
  pendingTimers : Nat
deriving DecidableEq, Repr

/-- The `use_state(|| !props.show)` / `use_signal(|| !props.show)`
initializer. -/
def initial_visible («show» : Bool) : Bool := !«show»

/-- The body of the show/delay effect (`use_effect_with((props.show,), ...)`
in `src/yew.rs`, `use_effect` in `src/dioxus.rs`), run at mount and on
config updates. -/
def runShowEffect («show» : Bool) (delay_ms : Nat) (st : InstanceState) : InstanceState :=
  if «show» then
    { st with visible := false }
  else if delay_ms > 0 then
    { st with pendingTimers := st.pendingTimers + 1 }
  else
    { st with visible := true }

/-- A scheduled timeout fires: the closure `move || visible.set(true)` runs
unconditionally — it re-checks neither `show` nor instance liveness. -/
def fireTimer (st : InstanceState) : InstanceState :=
  if st.pendingTimers > 0 then
    { visible := true, pendingTimers := st.pendingTimers - 1 }
  else
    st

/-- The intersection-observer callback for one entry: installed only when
`animate_on_visible`; sets the flag iff the entry is intersecting. -/
def fireIntersection (animate_on_visible is_intersecting : Bool) (st : InstanceState) : InstanceState :=
  if animate_on_visible && is_intersecting then { st with visible := true } else st

/-- State immediately after mount: the initializer runs, then the show/delay
effect runs once. -/
def mountState («show» : Bool) (delay_ms : Nat) : InstanceState :=
  runShowEffect «show» delay_ms { visible := initial_visible «show», pendingTimers := 0 }

/-- Mount of a Yew instance with props `p`. -/
def yew_mount (p : YewSkeletonProps) : InstanceState :=
  mountState p.«show» p.delay_ms

/-- Mount of a Dioxus instance with props `p`. -/
def dioxus_mount (p : DioxusSkeletonProps) : InstanceState :=
  mountState p.«show» p.delay_ms

/-- Events that can reach a mounted instance. -/
inductive Event where
  | update («show» : Bool) (delay_ms : Nat)
  | timerFire
  | intersection (is_intersecting : Bool)
deriving DecidableEq, Repr

/-- One step of a mounted instance with `animate_on_visible = aov`. -/
def step (aov : Bool) (st : InstanceState) : Event → InstanceState
  | .update s d => runShowEffect s d st
  | .timerFire => fireTimer st
  | .intersection b => fireIntersection aov b st

/-!
Stylesheet injection.  Both bindings run, at mount, an effect that checks
`document.get_element_by_id("skeleton-rs-style")`; if absent it creates a
`<style>` element with that id, fills it with the keyframe/pseudo-class CSS
and appends it to `<head>`; if present it does nothing.  The document is
modelled as the list of appended style blocks.  Braces inside the CSS
literals are written with `\x7b` / `\x7d` escapes.
-/

/-- A `<style>` element appended to the document head. -/
structure StyleBlock where
  id : String
  css : String
deriving DecidableEq, Repr

/-- The fixed reserved element id `"skeleton-rs-style"`. -/
def styleElementId : String := "skeleton-rs-style"

/-- `document.get_element_by_id(elemId).is_some()` over the modelled head. -/
def documentHasElement (doc : List StyleBlock) (elemId : String) : Bool :=
  doc.any (fun b => b.id == elemId)

/-- The injection effect of either binding: if no element with the reserved
id exists, append one carrying `css`; otherwise leave the document alone.
The block is never removed or rewritten. -/
def ensureGlobalStylesInjected (doc : List StyleBlock) (css : String) : List StyleBlock :=
  if documentHasElement doc styleElementId then doc
  else doc ++ [{ id := styleElementId, css := css }]

/-- Run the injection effect once per mounting instance, each instance
carrying the CSS text it would inject. -/
def injectAll (requests : List String) (doc : List StyleBlock) : List StyleBlock :=
  requests.foldl ensureGlobalStylesInjected doc

/-- Number of style blocks in the document bearing a given id. -/
def countStyleBlocks (doc : List StyleBlock) (elemId : String) : Nat :=
  (doc.filter (fun b => b.id == elemId)).length

/-- The fixed CSS text injected by the Yew binding (`set_inner_html(r#"..."#)`
in `src/yew.rs`), whitespace included. -/
def yew_stylesheet_css : String :=
  "\n" ++
  "                    @keyframes skeleton-rs-pulse \x7b\n" ++
  "                        0% \x7b opacity: 1; \x7d\n" ++
  "                        50% \x7b opacity: 0.4; \x7d\n" ++
  "                        100% \x7b opacity: 1; \x7d\n" ++
  "                    \x7d\n" ++
  "                    @keyframes skeleton-rs-wave \x7b\n" ++
  "                        0% \x7b background-position: -200% 0; \x7d\n" ++
  "                        100% \x7b background-position: 200% 0; \x7d\n" ++
  "                    \x7d\n" ++
  "                    .skeleton-hover:hover \x7b\n" ++
  "                        filter: brightness(0.95);\n" ++
  "                    \x7d\n" ++
  "                    .skeleton-focus:focus \x7b\n" ++
  "                        outline: 2px solid #999;\n" ++
  "                    \x7d\n" ++
  "                    .skeleton-active:active \x7b\n" ++
  "                        transform: scale(0.98);\n" ++
  "                    \x7d\n" ++
  "                "

/-- `let wave_keyframes = match direction { ... }` from the Dioxus injection
effect: direction-specific `skeleton-rs-wave` keyframes (the `CustomAngle`
arm reuses the left-to-right text). -/
def dioxus_wave_keyframes : Direction → String
  | .LeftToRight | .CustomAngle _ =>
      "\n" ++
      "                        @keyframes skeleton-rs-wave \x7b\n" ++
      "                            0%   \x7b background-position: 200% 0; \x7d\n" ++
      "                            25%  \x7b background-position: 100% 0; \x7d\n" ++
      "                            50%  \x7b background-position: 0% 0; \x7d\n" ++
      "                            75%  \x7b background-position: -100% 0; \x7d\n" ++
      "                            100% \x7b background-position: -200% 0; \x7d\n" ++
      "                        \x7d"
  | .RightToLeft =>
      "\n" ++
      "                        @keyframes skeleton-rs-wave \x7b\n" ++
      "                            0%   \x7b background-position: -200% 0; \x7d\n" ++
      "                            25%  \x7b background-position: -100% 0; \x7d\n" ++
      "                            50%  \x7b background-position: 0% 0; \x7d\n" ++
      "                            75%  \x7b background-position: 100% 0; \x7d\n" ++
      "                            100% \x7b background-position: 200% 0; \x7d\n" ++
      "                        \x7d"
  | .TopToBottom =>
      "\n" ++
      "                        @keyframes skeleton-rs-wave \x7b\n" ++
      "                            0%   \x7b background-position: 0 -200%; \x7d\n" ++
      "                            25%  \x7b background-position: 0 -100%; \x7d\n" ++
      "                            50%  \x7b background-position: 0 0%; \x7d\n" ++
      "                            75%  \x7b background-position: 0 100%; \x7d\n" ++
      "                            100% \x7b background-position: 0 200%; \x7d\n" ++
      "                        \x7d"
  | .BottomToTop =>
      "\n" ++
      "                        @keyframes skeleton-rs-wave \x7b\n" ++
      "                            0%   \x7b background-position: 0 200%; \x7d\n" ++
      "                            25%  \x7b background-position: 0 100%; \x7d\n" ++
      "                            50%  \x7b background-position: 0 0%; \x7d\n" ++
      "                            75%  \x7b background-position: 0 -100%; \x7d\n" ++
      "                            100% \x7b background-position: 0 -200%; \x7d\n" ++
      "                        \x7d"

/-- The CSS text injected by the Dioxus binding (the `format!` combining the
pulse keyframes, the direction-specific wave keyframes and the pseudo-class
rules). -/
def dioxus_stylesheet_css (direction : Direction) : String :=
  "\n" ++
  "                        @keyframes skeleton-rs-pulse \x7b\n" ++
  "                            0% \x7b opacity: 1; \x7d\n" ++
  "                            25% \x7b opacity: 0.7; \x7d\n" ++
  "                            50% \x7b opacity: 0.4; \x7d\n" ++
  "                            75% \x7b opacity: 0.7; \x7d\n" ++
  "                            100% \x7b opacity: 1; \x7d\n" ++
  "                        \x7d\n" ++
  "\n" ++
  "                        " ++
  dioxus_wave_keyframes direction ++
  "\n" ++
  "\n" ++
  "                        .skeleton-hover:hover \x7b\n" ++
  "                            filter: brightness(0.95);\n" ++
  "                        \x7d\n" ++
  "\n" ++
  "                        .skeleton-focus:focus \x7b\n" ++
  "                            outline: 2px solid #999;\n" ++
  "                        \x7d\n" ++
  "\n" ++
  "                        .skeleton-active:active \x7b\n" ++
  "                            transform: scale(0.98);\n" ++
  "                        \x7d\n" ++
  "                    "

/-! Helper lemmas about the stylesheet injector. -/

theorem ensure_of_present {doc : List StyleBlock}
    (h : documentHasElement doc styleElementId = true) (css : String) :
    ensureGlobalStylesInjected doc css = doc := by
  simp [ensureGlobalStylesInjected, h]

theorem injectAll_of_present (requests : List String) {doc : List StyleBlock}
    (h : documentHasElement doc styleElementId = true) :
    injectAll requests doc = doc := by
  induction requests with
  | nil => rfl
  | cons c cs ih =>
      show injectAll cs (ensureGlobalStylesInjected doc c) = doc
      rw [ensure_of_present h]
      exact ih

/-! The claims. -/

/-- Claim C1: a freshly created instance's visibility flag is the negation of
`show` (`use_state(|| !props.show)` / `use_signal(|| !props.show)`): the
initial state is `Shown` (flag `true`, placeholder rendered) unless
`show == true`, in which case it is `Hidden` — and for every config with
`show == true`, the state right after mount (effect included) is `Hidden`
regardless of the other fields, `delay_ms` and `animate_on_visible`
included. -/
theorem claim_C1_initial_state :
    (∀ (s : Bool), initial_visible s = !s)
    ∧ (∀ p : YewSkeletonProps,
        initial_visible p.«show» = !p.«show»
        ∧ (yew_mount { p with «show» := true }).visible = false)
    ∧ (∀ p : DioxusSkeletonProps,
        initial_visible p.«show» = !p.«show»
        ∧ (dioxus_mount { p with «show» := true }).visible = false) :=
  ⟨fun _ => rfl, fun _ => ⟨rfl, rfl⟩, fun _ => ⟨rfl, rfl⟩⟩

/-- Claim C2 is refuted (code bug): with `show == false` and
`delay_ms = 1000 > 0` the flag is already `true` immediately after mount —
the initializer sets `visible = !show = true` and the delay branch of the
effect only schedules a timeout without hiding anything — so the placeholder
is `Shown` at t = 0, not `Hidden`, and the later timer fire merely re-sets
`true`.  This also holds at the props level for both bindings. -/
theorem claim_C2_delay_shows_immediately :
    (mountState false 1000).visible = true
    ∧ (mountState false 1000).pendingTimers = 1
    ∧ (fireTimer (mountState false 1000)).visible = true
    ∧ (yew_mount { yewDefaultProps with «show» := false, delay_ms := 1000 }).visible = true
    ∧ (dioxus_mount { dioxusDefaultProps with «show» := false, delay_ms := 1000 }).visible = true :=
  ⟨rfl, rfl, rfl, rfl, rfl⟩

/-- Claim C3 is refuted (code bug): an update setting `show := true` does
force the flag to `false`, but the pending timeout was `forget()`-ten (never
cancelled) and its closure sets the flag to `true` unconditionally — it
re-checks neither `show` nor liveness — so the stale fire flips the state
back to `Shown`.  Trace: mount with `show = false, delay_ms = 5000`, update
to `show = true`, then the scheduled timer fires. -/
theorem claim_C3_stale_timer_overrides_show :
    (yew_mount { yewDefaultProps with «show» := false, delay_ms := 5000 }).pendingTimers = 1
    ∧ (step false (yew_mount { yewDefaultProps with «show» := false, delay_ms := 5000 })
        (.update true 5000)).visible = false
    ∧ (step false (yew_mount { yewDefaultProps with «show» := false, delay_ms := 5000 })
        (.update true 5000)).pendingTimers = 1
    ∧ (step false (step false (yew_mount { yewDefaultProps with «show» := false, delay_ms := 5000 })
        (.update true 5000)) .timerFire).visible = true :=
  ⟨rfl, rfl, rfl, rfl⟩

/-- Claim C4: an update with `show == false` and `delay_ms == 0` takes the
`else` branch `visible.set(true)` — the flag becomes `true` in the same step
and no timeout is scheduled (`pendingTimers` is unchanged, and `0` from a
fresh mount). -/
theorem claim_C4_zero_delay_synchronous :
    (∀ (aov : Bool) (st : InstanceState),
        step aov st (.update false 0) =
          { visible := true, pendingTimers := st.pendingTimers })
    ∧ (∀ p : YewSkeletonProps,
        yew_mount { p with «show» := false, delay_ms := 0 } =
          { visible := true, pendingTimers := 0 })
    ∧ (∀ p : DioxusSkeletonProps,
        dioxus_mount { p with «show» := false, delay_ms := 0 } =
          { visible := true, pendingTimers := 0 }) :=
  ⟨fun _ _ => rfl, fun _ => rfl, fun _ => rfl⟩

/-- Claim C5: once the flag is `true` (`Shown`), the only event that can make
it `false` again is an update carrying `show == true`: a timer fire sets it
to `true`, an intersection event sets it to `true` when intersecting (with
`animate_on_visible`) and leaves the state untouched when not intersecting —
there is no automatic re-hide. -/
theorem claim_C5_shown_is_stable :
    (∀ (aov : Bool) (st : InstanceState) (e : Event),
        st.visible = true → (∀ d, e ≠ .update true d) → (step aov st e).visible = true)
    ∧ (∀ st : InstanceState, (fireIntersection true true st).visible = true)
    ∧ (∀ (aov : Bool) (st : InstanceState), fireIntersection aov false st = st) := by
  refine ⟨?_, fun st => rfl, fun aov st => ?_⟩
  · intro aov st e hv hne
    cases e with
    | update s d =>
        cases s with
        | false =>
            show (runShowEffect false d st).visible = true
            unfold runShowEffect
            split
            · simp_all
            · split
              · exact hv
              · rfl
        | true => exact absurd rfl (hne d)
    | timerFire =>
        show (fireTimer st).visible = true
        unfold fireTimer
        split
        · rfl
        · exact hv
    | intersection b =>
        show (fireIntersection aov b st).visible = true
        unfold fireIntersection
        split
        · rfl
        · exact hv
  · unfold fireIntersection
    simp

/-- Witness for claim C5 at a concrete state and event: a timer fire against
an already-`Shown` state keeps it `Shown`. -/
theorem claim_C5_shown_is_stable_witness :
    (step true { visible := true, pendingTimers := 1 } Event.timerFire).visible = true :=
  claim_C5_shown_is_stable.1 true { visible := true, pendingTimers := 1 } Event.timerFire rfl
    (fun _ h => Event.noConfusion h)

/-- Claim C6: the effective border radius follows the variant override table
— `Circular` and `Avatar` map to `50%`, `Rectangular` to `0`, `Rounded` to
`8px`, `Button` to `6px`, and only `Text` and `Image` use the explicit
`border_radius` field — so for shape-defining variants the override wins
over the explicit field; in particular resolving
`variant = Circular, border_radius = "4px"` yields a style string carrying
`border-radius: 50%` in both bindings. -/
theorem claim_C6_effective_radius_table :
    (∀ r : String,
      effective_radius .Circular r = "50%"
      ∧ effective_radius .Avatar r = "50%"
      ∧ effective_radius .Rectangular r = "0"
      ∧ effective_radius .Rounded r = "8px"
      ∧ effective_radius .Button r = "6px"
      ∧ effective_radius .Text r = r
      ∧ effective_radius .Image r = r)
    ∧ (∃ a b : String,
      yew_style { yewDefaultProps with variant := .Circular, border_radius := "4px" } =
        a ++ "border-radius: 50%;" ++ b
      ∧ dioxus_style { dioxusDefaultProps with variant := .Circular, border_radius := "4px" } =
        a ++ "border-radius: 50%;" ++ b) :=
  ⟨fun _ => ⟨rfl, rfl, rfl, rfl, rfl, rfl, rfl⟩,
   ⟨"width: 100%; height: 1em; background-color: #e0e0e0; ",
    " display: inline-block; position: relative; overflow: hidden; margin: ; line-height: 1;animation: skeleton-rs-pulse 1.5s ease-in-out infinite;",
    rfl, rfl⟩⟩

/-- Claim C7: under `animation == Wave` the richer (Dioxus) binding derives
the gradient angle from `direction` — `LeftToRight` gives 90, `RightToLeft`
270, `TopToBottom` 180, `BottomToTop` 0 and `CustomAngle d` gives `d` — and
emits it in the style string, while the simpler (Yew) binding has no
direction prop at all and always emits the fixed 90-degree gradient. -/
theorem claim_C7_wave_angle_table :
    (wave_angle .LeftToRight = 90
      ∧ wave_angle .RightToLeft = 270
      ∧ wave_angle .TopToBottom = 180
      ∧ wave_angle .BottomToTop = 0
      ∧ ∀ d : Int, wave_angle (.CustomAngle d) = d)
    ∧ (∀ dir : Direction,
        animation_style .Wave dir = wave_gradient (toString (wave_angle dir)))
    ∧ (animation_style .Wave .LeftToRight = wave_gradient "90"
      ∧ animation_style .Wave .RightToLeft = wave_gradient "270"
      ∧ animation_style .Wave .TopToBottom = wave_gradient "180"
      ∧ animation_style .Wave .BottomToTop = wave_gradient "0")
    ∧ base_animation .Wave =
        "background: linear-gradient(90deg, #e0e0e0 25%, #f5f5f5 50%, #e0e0e0 75%); background-size: 200% 100%; animation: skeleton-rs-wave 1.6s linear infinite;" :=
  ⟨⟨rfl, rfl, rfl, rfl, fun _ => rfl⟩, fun _ => rfl, ⟨rfl, rfl, rfl, rfl⟩, rfl⟩

/-- Claim C8: stylesheet injection is idempotent and write-once — starting
from a document without the reserved block, any positive number of injection
calls leaves exactly one block with id `skeleton-rs-style`, carrying the CSS
of the first call; later calls never remove or update it, even when a later
instance requests a different direction's wave keyframes. -/
theorem claim_C8_injection_idempotent :
    (∀ (first : String) (rest : List String),
      injectAll (first :: rest) [] = [{ id := styleElementId, css := first }]
      ∧ countStyleBlocks (injectAll (first :: rest) []) styleElementId = 1)
    ∧ (∀ d₁ d₂ : Direction,
      injectAll [dioxus_stylesheet_css d₁, dioxus_stylesheet_css d₂] [] =
        [{ id := styleElementId, css := dioxus_stylesheet_css d₁ }])
    ∧ (∀ rest : List String,
      injectAll (yew_stylesheet_css :: rest) [] =
        [{ id := styleElementId, css := yew_stylesheet_css }]) := by
  have key : ∀ (first : String) (rest : List String),
      injectAll (first :: rest) [] = [{ id := styleElementId, css := first }] := by
    intro first rest
    show injectAll rest (ensureGlobalStylesInjected [] first) =
      [{ id := styleElementId, css := first }]
    have h1 : ensureGlobalStylesInjected [] first =
        [{ id := styleElementId, css := first }] := rfl
    rw [h1]
    exact injectAll_of_present rest rfl
  refine ⟨fun first rest => ⟨key first rest, ?_⟩,
    fun d₁ d₂ => key (dioxus_stylesheet_css d₁) [dioxus_stylesheet_css d₂],
    fun rest => key yew_stylesheet_css rest⟩
  rw [key first rest]
  rfl

/-- Claim C9: the `responsive` flag is accepted as a prop but never read —
for any two configurations differing only in `responsive`, the computed
style string, the class list, the rendered node tree (for either value of
the visibility flag) and the mount state are identical, in both bindings. -/
theorem claim_C9_responsive_has_no_effect :
    ∀ (b v : Bool),
      (∀ p : YewSkeletonProps,
        yew_style { p with responsive := b } = yew_style p
        ∧ yew_class_names { p with responsive := b } = yew_class_names p
        ∧ yew_render { p with responsive := b } v = yew_render p v
        ∧ yew_mount { p with responsive := b } = yew_mount p)
      ∧ (∀ p : DioxusSkeletonProps,
        dioxus_style { p with responsive := b } = dioxus_style p
        ∧ dioxus_class_names { p with responsive := b } = dioxus_class_names p
        ∧ dioxus_render { p with responsive := b } v = dioxus_render p v
        ∧ dioxus_mount { p with responsive := b } = dioxus_mount p) :=
  fun _ _ =>
    ⟨fun _ => ⟨rfl, rfl, rfl, rfl⟩, fun _ => ⟨rfl, rfl, rfl, rfl⟩⟩

set_option maxRecDepth 8192 in
/-- Claim C10: under `animation == Wave` the gradient stops emitted in the
style string are the fixed light pair `#e0e0e0` / `#f5f5f5` for every
direction, and the theme reaches the style only through the resolved
background color — the assembly core ignores the `theme` field — so a Dark
(or Custom) theme still gets the light wave gradient layered over its
`background-color`. -/
theorem claim_C10_wave_stops_theme_independent :
    (∀ dir : Direction,
      animation_style .Wave dir =
        "background: linear-gradient(" ++ toString (wave_angle dir) ++
          "deg, #e0e0e0 25%, #f5f5f5 50%, #e0e0e0 75%);\n                 background-size: 200% 100%;\n                 animation: skeleton-rs-wave 1.6s linear infinite;")
    ∧ (∀ (p : DioxusSkeletonProps) (t : Theme) (bg : String),
        dioxus_style_core { p with theme := t } bg = dioxus_style_core p bg)
    ∧ (∀ p : DioxusSkeletonProps,
        dioxus_style p = dioxus_style_core p (background_color p.theme))
    ∧ (∀ (p : YewSkeletonProps) (t : Theme) (bg : String),
        yew_style_core { p with theme := t } bg = yew_style_core p bg)
    ∧ (∀ p : YewSkeletonProps,
        yew_style p = yew_style_core p (background_color p.theme))
    ∧ (background_color .Light = "#e0e0e0"
        ∧ background_color .Dark = "#444444"
        ∧ ∀ c : String, background_color (.Custom c) = c)
    ∧ (∃ a b c : String,
        dioxus_style { dioxusDefaultProps with theme := .Dark, animation := .Wave } =
          a ++ "background-color: #444444;" ++ b ++
            "#e0e0e0 25%, #f5f5f5 50%, #e0e0e0 75%" ++ c) :=
  ⟨fun _ => rfl, fun _ _ _ => rfl, fun _ => rfl, fun _ _ _ => rfl, fun _ => rfl,
   ⟨rfl, rfl, fun _ => rfl⟩,
   ⟨"width: 100%; height: 1em; ",
    " border-radius: 4px; display: inline-block; position: relative; overflow: hidden; margin: ; line-height: 1;background: linear-gradient(90deg, ",
    ");\n                 background-size: 200% 100%;\n                 animation: skeleton-rs-wave 1.6s linear infinite;",
    rfl⟩⟩

end SkeletonRs
